import Mathlib

/-!
Verification of the anthropometric inference engine in `src/ai_service.py`
(repository `god844/software`).

This file gives a shallow embedding of the parts of the code that the
specification's claims are about:

* `UserProfile.__post_init__` / `_validate_bounds` / `_derive_missing_measurements`
  (profile normalisation and derivation of missing measurements);
* `EnhancedSizeClassifier.predict_with_confidence` (the post-calibration part:
  arg-max pick, alternatives, fit-preference adjustment), `_size_up`, `_size_down`,
  `get_sql_recommendation`;
* `EnhancedMeasurementPredictor.predict_with_confidence` together with
  `GenderSpecificMeasurementPredictor` and the rule-based fallbacks;
* `ModelRegistry.load_model`.

Python floats are modelled as rationals (`ℚ`); `round(x, n)` is modelled as
decimal round-half-to-even (`pyRound`).  External effects (database access,
logging, joblib/scikit-learn estimators) are modelled as explicit parameters
or oracle values.  Explanation-step logging is a write-only side effect in the
code and is omitted from the embedding; no claim refers to it.
-/

/-! ## Decimal rounding (Python's `round(x, ndigits)` on exact rationals)

Python rounds half to even.  `roundHalfToEven q` rounds a rational to the
nearest integer, ties to the even integer; `pyRound n q` rounds to `n`
decimal digits. -/

def roundHalfToEven (q : ℚ) : ℤ :=
  let f := ⌊q⌋
  let r := q - (f : ℚ)
  if r < 1/2 then f
  else if 1/2 < r then f + 1
  else if f % 2 = 0 then f else f + 1

def pyRound (n : ℕ) (q : ℚ) : ℚ :=
  (roundHalfToEven (q * 10 ^ n) : ℚ) / 10 ^ n

/-! ## `UserProfile` (src/ai_service.py:763-918)

The dataclass has required fields `gender, age, height_cm, weight_kg` and
optional measurement fields; `__post_init__` first validates every field that
has an entry in `VALIDATION_BOUNDS` and then derives the missing measurements
in place.  We model the dataclass as a record of `Option ℚ` measurement fields
and `__post_init__` as `mkUserProfile : UserProfile → Except String UserProfile`. -/

structure UserProfile where
  gender : String
  age : ℤ
  height_cm : ℚ
  weight_kg : ℚ
  bust_cm : Option ℚ := none
  waist_cm : Option ℚ := none
  hip_cm : Option ℚ := none
  shoulder_cm : Option ℚ := none
  sleeve_length_cm : Option ℚ := none
  top_length_cm : Option ℚ := none
  skirt_length_cm : Option ℚ := none
  dupatta_length_cm : Option ℚ := none
  dupatta_width_cm : Option ℚ := none
  waist_to_hip_drop : Option ℚ := none
  chest_cm : Option ℚ := none
  fit_preference : String := "standard"
  body_shape : String := "average"
  deriving Repr, DecidableEq

/-- Python truthiness of an optional float: `None` and `0.0` are falsy. -/
def optTruthy (v : Option ℚ) : Bool :=
  match v with
  | none => false
  | some x => decide (x ≠ 0)

def inBounds (v lo hi : ℚ) : Bool :=
  decide (lo ≤ v) && decide (v ≤ hi)

def optInBounds (v : Option ℚ) (lo hi : ℚ) : Bool :=
  match v with
  | none => true
  | some x => inBounds x lo hi

/-- `UserProfile._validate_bounds` (src/ai_service.py:800-808): every field
listed in `VALIDATION_BOUNDS` (src/ai_service.py:103-116) that is present must
lie within its `[min, max]` range.  Note the dict has no entry for `chest_cm`,
`dupatta_width_cm` or `waist_to_hip_drop`, so those are never checked. -/
def validate_bounds (p : UserProfile) : Bool :=
  inBounds p.height_cm 80 200 &&          -- 'height_cm': (80, 200)
  inBounds p.weight_kg 10 120 &&          -- 'weight_kg': (10, 120)
  optInBounds p.bust_cm 40 140 &&         -- 'bust_cm': (40, 140)
  optInBounds p.waist_cm 40 140 &&        -- 'waist_cm': (40, 140)
  optInBounds p.hip_cm 40 160 &&          -- 'hip_cm': (40, 160)
  optInBounds p.shoulder_cm 28 50 &&      -- 'shoulder_cm': (28, 50)
  optInBounds p.sleeve_length_cm 15 65 && -- 'sleeve_length_cm': (15, 65)
  inBounds (p.age : ℚ) 3 18 &&            -- 'age': (3, 18)
  optInBounds p.dupatta_length_cm 180 280 && -- 'dupatta_length_cm': (180, 280)
  optInBounds p.skirt_length_cm 25 80 &&  -- 'skirt_length_cm': (25, 80)
  optInBounds p.top_length_cm 35 75       -- 'top_length_cm': (35, 75)

/-- `UserProfile._estimate_bust_from_height_weight` (src/ai_service.py:848-855). -/
def estimate_bust_from_height_weight (p : UserProfile) : ℚ :=
  let base := p.height_cm * (52/100) + p.weight_kg * (4/10)
  let base := if 12 ≤ p.age then base + ((p.age : ℚ) - 12) * (12/10) else base
  pyRound 1 (max 40 (min base 140))

/-- `UserProfile._estimate_waist_from_height_weight` (src/ai_service.py:857-860). -/
def estimate_waist_from_height_weight (p : UserProfile) : ℚ :=
  let base := p.height_cm * (42/100) + p.weight_kg * (3/10)
  pyRound 1 (max 40 (min base 140))

/-- `UserProfile._estimate_hip_from_height_weight` (src/ai_service.py:862-868). -/
def estimate_hip_from_height_weight (p : UserProfile) : ℚ :=
  let base := p.height_cm * (54/100) + p.weight_kg * (35/100)
  let base := if p.gender = "F" ∧ 10 ≤ p.age then base + 2 else base
  pyRound 1 (max 40 (min base 160))

/-- `UserProfile._estimate_chest_from_height_weight` (src/ai_service.py:870-873).
The clamp bounds `40`/`140` are literals in the source (there is no
`chest_cm` entry in `VALIDATION_BOUNDS`). -/
def estimate_chest_from_height_weight (p : UserProfile) : ℚ :=
  let base := p.height_cm * (52/100) + p.weight_kg * (4/10)
  pyRound 1 (max 40 (min base 140))

/-- `UserProfile._estimate_shoulder_from_height` (src/ai_service.py:875-878). -/
def estimate_shoulder_from_height (p : UserProfile) : ℚ :=
  pyRound 1 (max 28 (min (p.height_cm * (25/100)) 50))

/-- `UserProfile._estimate_sleeve_from_height` (src/ai_service.py:880-883). -/
def estimate_sleeve_from_height (p : UserProfile) : ℚ :=
  pyRound 1 (max 15 (min (p.height_cm * (32/100)) 65))

/-- `UserProfile._derive_missing_measurements` (src/ai_service.py:810-846).
For gender `'F'` the female fields are backfilled (`bust_cm` is copied from a
supplied `chest_cm` without clamping, otherwise estimated); every other gender
takes the male branch.  The `waist_to_hip_drop` derivation tests the already
updated `waist_cm`/`hip_cm` for Python truthiness. -/
def derive_missing_measurements (p : UserProfile) : UserProfile :=
  if p.gender = "F" then
    let bust : Option ℚ :=
      match p.bust_cm, p.chest_cm with
      | none, some c => some c          -- use chest as bust if provided
      | none, none => some (estimate_bust_from_height_weight p)
      | some b, _ => some b
    let waist : Option ℚ :=
      match p.waist_cm with
      | none => some (estimate_waist_from_height_weight p)
      | some w => some w
    let hip : Option ℚ :=
      match p.hip_cm with
      | none => some (estimate_hip_from_height_weight p)
      | some h => some h
    let shoulder : Option ℚ :=
      match p.shoulder_cm with
      | none => some (estimate_shoulder_from_height p)
      | some s => some s
    let sleeve : Option ℚ :=
      match p.sleeve_length_cm with
      | none => some (estimate_sleeve_from_height p)
      | some s => some s
    let drop : Option ℚ :=
      match p.waist_to_hip_drop with
      | none =>
          if optTruthy waist && optTruthy hip then
            some (hip.getD 0 - waist.getD 0)
          else none
      | some d => some d
    { p with bust_cm := bust, waist_cm := waist, hip_cm := hip,
             shoulder_cm := shoulder, sleeve_length_cm := sleeve,
             waist_to_hip_drop := drop }
  else
    let chest : Option ℚ :=
      match p.chest_cm with
      | none => some (estimate_chest_from_height_weight p)
      | some c => some c
    let waist : Option ℚ :=
      match p.waist_cm with
      | none => some (estimate_waist_from_height_weight p)
      | some w => some w
    let shoulder : Option ℚ :=
      match p.shoulder_cm with
      | none => some (estimate_shoulder_from_height p)
      | some s => some s
    let sleeve : Option ℚ :=
      match p.sleeve_length_cm with
      | none => some (estimate_sleeve_from_height p)
      | some s => some s
    { p with chest_cm := chest, waist_cm := waist,
             shoulder_cm := shoulder, sleeve_length_cm := sleeve }

/-- `UserProfile.__post_init__` (src/ai_service.py:795-798): validate all
bounded fields, then derive the missing measurements.  A bounds violation
raises `ValueError`, modelled as `Except.error`. -/
def mkUserProfile (p : UserProfile) : Except String UserProfile :=
  if validate_bounds p then Except.ok (derive_missing_measurements p)
  else Except.error "outside valid range"

instance {e a : Type} [DecidableEq e] [DecidableEq a] : DecidableEq (Except e a) :=
  fun x y =>
  match x, y with
  | Except.ok v, Except.ok w =>
      if h : v = w then isTrue (by rw [h])
      else isFalse (by intro he; cases he; exact h rfl)
  | Except.error v, Except.error w =>
      if h : v = w then isTrue (by rw [h])
      else isFalse (by intro he; cases he; exact h rfl)
  | Except.ok _, Except.error _ => isFalse (by intro he; cases he)
  | Except.error _, Except.ok _ => isFalse (by intro he; cases he)

/-! ## Size ladder and fit-preference adjustment
(`EnhancedSizeClassifier`, src/ai_service.py:1751-1831, 2046-2062) -/

def size_order : List String :=
  ["xs", "small-", "small", "small+", "medium", "medium+", "large", "large+", "xl"]

/-- `EnhancedSizeClassifier._size_up` (src/ai_service.py:2046-2053):
`size_order[min(current_idx + 1, len(size_order) - 1)]`; a `ValueError`
from `.index` (code not in the ladder) returns the input unchanged. -/
def size_up (s : String) : String :=
  match size_order.indexOf? s with
  | some i => size_order.getD (min (i + 1) (size_order.length - 1)) s
  | none => s

/-- `EnhancedSizeClassifier._size_down` (src/ai_service.py:2055-2062):
`size_order[max(current_idx - 1, 0)]`; truncated `ℕ` subtraction realises
`max(i - 1, 0)`. -/
def size_down (s : String) : String :=
  match size_order.indexOf? s with
  | some i => size_order.getD (i - 1) s
  | none => s

/-- The fit-preference adjustment step of
`EnhancedSizeClassifier.predict_with_confidence` (src/ai_service.py:1804-1831):
`"loose"` sizes up and multiplies the confidence by 0.9; `"snug"` with
age ≥ 10 sizes down with the same multiplier; otherwise no change. -/
def apply_fit_adjustment (best_size : String) (conf : ℚ)
    (fit_preference : String) (age : ℤ) : String × ℚ :=
  if fit_preference = "loose" then (size_up best_size, conf * (9/10))
  else if fit_preference = "snug" ∧ 10 ≤ age then (size_down best_size, conf * (9/10))
  else (best_size, conf)

/-- Python `max(prob_dict, key=prob_dict.get)` over the association list
`prob_dict.items()`: the first entry attaining the maximal probability
(`max` replaces its candidate only on strict improvement).  `none` models
`max` raising `ValueError` on an empty dict. -/
def pyMaxByVal : List (String × ℚ) → Option (String × ℚ)
  | [] => none
  | h :: t => some (t.foldl (fun cur x => if cur.2 < x.2 then x else cur) h)

/-- Python `sorted(prob_dict.items(), key=lambda x: x[1], reverse=True)`:
sort descending by probability (src/ai_service.py:1765-1768). -/
def sortDescByProb (l : List (String × ℚ)) : List (String × ℚ) :=
  List.insertionSort (fun a b => b.2 ≤ a.2) l

instance : IsTotal (String × ℚ) (fun a b => b.2 ≤ a.2) :=
  ⟨fun a b => le_total b.2 a.2⟩

instance : IsTrans (String × ℚ) (fun a b => b.2 ≤ a.2) :=
  ⟨fun _ _ _ hab hbc => le_trans hbc hab⟩

/-- Post-calibration logic of `EnhancedSizeClassifier.predict_with_confidence`
(src/ai_service.py:1751-1831), calibrated-model branch: pick the arg-max class
as `best_size` with its calibrated probability as confidence, take the next
three classes of the descending sort as `alternatives`
(`sorted(...)[1:4]`), then apply the fit-preference adjustment.  The
alternatives are computed before the adjustment and are not updated by it.
`probs` is `prob_dict.items()` in class order. -/
def classifier_post (probs : List (String × ℚ)) (fit_preference : String)
    (age : ℤ) : Option (String × ℚ × List (String × ℚ)) :=
  match pyMaxByVal probs with
  | none => none
  | some best =>
    let alternatives := ((sortDescByProb probs).drop 1).take 3
    let adjusted := apply_fit_adjustment best.1 best.2 fit_preference age
    some (adjusted.1, adjusted.2, alternatives)

/-- The no-calibrated-model branch of the same function
(src/ai_service.py:1791-1831): confidence defaults to 0.7, the base model's
predicted class is kept, the alternatives list is empty, and the same
fit-preference adjustment is applied. -/
def classifier_post_uncalibrated (prediction : String) (fit_preference : String)
    (age : ℤ) : String × ℚ × List (String × ℚ) :=
  let adjusted := apply_fit_adjustment prediction (7/10) fit_preference age
  (adjusted.1, adjusted.2, [])

/-! ## Measurement predictor
(`EnhancedMeasurementPredictor` and `GenderSpecificMeasurementPredictor`,
src/ai_service.py:387-653, 2084-2483) -/

def MODEL_VERSION : String := "v4.0"

/-- The fields of the `MeasurementPrediction` dataclass
(src/ai_service.py:936-949) that the claims refer to.  The explanation-step
list is write-only logging output and is omitted. -/
structure MeasurementPrediction where
  measure_name : String
  value_cm : ℚ
  confidence : ℚ
  method_used : String
  model_version : String := MODEL_VERSION
  original_prediction : Option ℚ := none
  features_used : List String := []
  deriving Repr, DecidableEq

/-- Python `str.lower()` (ASCII case folding suffices for garment codes). -/
def lowerStr (s : String) : String := s.map Char.toLower

/-- Python's `sub in s` substring test. -/
def containsSub (s sub : String) : Bool := decide (sub.toList <:+: s.toList)

/-- `EnhancedMeasurementPredictor._extract_garment_type`
(src/ai_service.py:2212-2238). -/
def extract_garment_type (garment_code : String) : String :=
  let g := lowerStr garment_code
  if containsSub g "skirt" then "skirt"
  else if containsSub g "dupatta" then "dupatta"
  else if containsSub g "kurti" || containsSub g "kurta" then
    (if containsSub g "girls" then "kurti" else "kurta")
  else if containsSub g "lehenga" then "lehenga"
  else if containsSub g "salwar" then "salwar"
  else if containsSub g "churidar" then "churidar"
  else if containsSub g "dhoti" then "dhoti"
  else if containsSub g "shirt" then "shirt"
  else if containsSub g "blazer" then "blazer"
  else if containsSub g "pinafore" then "pinafore"
  else "generic"

/-- `GENDER_SPECIFIC_MEASUREMENTS` (src/ai_service.py:124-137). -/
def GENDER_SPECIFIC_MEASUREMENTS : List (String × List (String × List String)) :=
  [("F", [("skirt", ["waist_cm", "hip_cm", "skirt_length_cm", "waist_to_hip_drop"]),
          ("dupatta", ["dupatta_length_cm", "dupatta_width_cm"]),
          ("kurti", ["bust_cm", "waist_cm", "hip_cm", "top_length_cm", "sleeve_length_cm"]),
          ("lehenga", ["bust_cm", "waist_cm", "hip_cm", "skirt_length_cm", "dupatta_length_cm"]),
          ("salwar", ["waist_cm", "hip_cm", "inseam_cm", "ankle_circumference_cm"]),
          ("churidar", ["waist_cm", "hip_cm", "thigh_cm", "ankle_circumference_cm"])]),
   ("M", [("dhoti", ["waist_cm", "hip_cm", "dhoti_length_cm"]),
          ("kurta", ["chest_cm", "waist_cm", "top_length_cm", "sleeve_length_cm"])])]

/-- `EnhancedMeasurementPredictor._is_gender_specific_garment`
(src/ai_service.py:2240-2242):
`garment_type in GENDER_SPECIFIC_MEASUREMENTS.get(gender, {})`. -/
def is_gender_specific_garment (garment_type gender : String) : Bool :=
  match GENDER_SPECIFIC_MEASUREMENTS.lookup gender with
  | some d => (d.lookup garment_type).isSome
  | none => false

/-- `GenderSpecificMeasurementPredictor._general_anthropometric_prediction`
(src/ai_service.py:613-653). -/
def general_anthropometric_prediction (measurement_name : String)
    (p : UserProfile) : MeasurementPrediction :=
  let predicted_value :=
    if measurement_name = "shoulder_cm" then p.height_cm * (25/100)
    else if measurement_name = "sleeve_length_cm" then p.height_cm * (32/100)
    else p.height_cm * (3/10)
  { measure_name := measurement_name
    value_cm := pyRound 2 predicted_value
    confidence := 7/10
    method_used := "anthropometric_general"
    features_used := ["height_cm"] }

/-- `GenderSpecificMeasurementPredictor._predict_female_specific`
(src/ai_service.py:426-581).  The anthropometric ratios 0.35 (skirt length to
height) and 1.75 (dupatta length to height) come from
`_load_anthropometric_ratios` (src/ai_service.py:395-412).  A profile field
read by a rule is always set for a normalised female profile; `getD 0` models
the attribute access the source performs without a `None` check. -/
def predict_female_specific (garment_type measurement_name : String)
    (p : UserProfile) : MeasurementPrediction :=
  if garment_type = "skirt" then
    if measurement_name = "waist_cm" then
      let base_value := p.waist_cm.getD 0
      let ease_allowance : ℚ := 4
      { measure_name := measurement_name
        value_cm := pyRound 2 (base_value + ease_allowance)
        confidence := 9/10
        method_used := "female_skirt_waist_specific"
        features_used := ["waist_cm"] }
    else if measurement_name = "hip_cm" then
      let base_hip := p.hip_cm.getD 0
      let base_waist := p.waist_cm.getD 0
      let min_hip_allowance := base_waist * (115/100)
      let predicted_hip := max (base_hip + 6) min_hip_allowance
      { measure_name := measurement_name
        value_cm := pyRound 2 predicted_hip
        confidence := 85/100
        method_used := "female_skirt_hip_specific"
        features_used := ["hip_cm", "waist_cm"] }
    else if measurement_name = "skirt_length_cm" then
      let base_length := p.height_cm * (35/100)
      let length_multiplier : ℚ :=
        if p.age ≤ 8 then 9/10 else if 15 ≤ p.age then 11/10 else 1
      { measure_name := measurement_name
        value_cm := pyRound 2 (base_length * length_multiplier)
        confidence := 8/10
        method_used := "female_skirt_length_specific"
        features_used := ["height_cm", "age"] }
    else general_anthropometric_prediction measurement_name p
  else if garment_type = "dupatta" then
    if measurement_name = "dupatta_length_cm" then
      let base_length := p.height_cm * (175/100)
      let style_adjustment : ℚ := if p.age ≤ 10 then -10 else 0
      { measure_name := measurement_name
        value_cm := pyRound 2 (base_length + style_adjustment)
        confidence := 8/10
        method_used := "female_dupatta_specific"
        features_used := ["height_cm", "age"] }
    else general_anthropometric_prediction measurement_name p
  else general_anthropometric_prediction measurement_name p

/-- `GenderSpecificMeasurementPredictor._predict_male_specific`
(src/ai_service.py:583-611); the kurta ratio 0.45 comes from
`_load_anthropometric_ratios`. -/
def predict_male_specific (garment_type measurement_name : String)
    (p : UserProfile) : MeasurementPrediction :=
  if garment_type = "kurta" ∧ measurement_name = "top_length_cm" then
    { measure_name := measurement_name
      value_cm := pyRound 2 (p.height_cm * (45/100))
      confidence := 85/100
      method_used := "male_kurta_specific"
      features_used := ["height_cm"] }
  else general_anthropometric_prediction measurement_name p

/-- `GenderSpecificMeasurementPredictor.predict_gender_specific_measurement`
(src/ai_service.py:414-424). -/
def predict_gender_specific_measurement (garment_type measurement_name : String)
    (p : UserProfile) : MeasurementPrediction :=
  if p.gender = "F" then predict_female_specific garment_type measurement_name p
  else predict_male_specific garment_type measurement_name p

/-- `EnhancedMeasurementPredictor._apply_female_garment_rules`
(src/ai_service.py:2244-2323): rules exist only for shirts/blazers
(chest/bust and sleeve_length); everything else returns `None`. -/
def apply_female_garment_rules (garment_code measure_name : String)
    (p : UserProfile) : Option MeasurementPrediction :=
  if containsSub (lowerStr garment_code) "shirt" ||
     containsSub (lowerStr garment_code) "blazer" then
    if measure_name = "chest" ∨ measure_name = "bust" then
      let base_bust := p.bust_cm.getD 0
      let ease_allowance : ℚ := 8
      some { measure_name := measure_name
             value_cm := pyRound 2 (base_bust + ease_allowance)
             confidence := 85/100
             method_used := "female_shirt_rule"
             features_used := ["bust_cm"] }
    else if measure_name = "sleeve_length" then
      let base_sleeve := p.height_cm * (32/100)
      let age_adjustment : ℚ :=
        if p.age ≤ 8 then 95/100 else if 14 ≤ p.age then 105/100 else 1
      some { measure_name := measure_name
             value_cm := pyRound 2 (base_sleeve * age_adjustment)
             confidence := 8/10
             method_used := "female_sleeve_rule"
             features_used := ["height_cm", "age"] }
    else none
  else none

/-- `EnhancedMeasurementPredictor._universal_rule_prediction`
(src/ai_service.py:2470-2483).  The `if profile.x else ...` tests are Python
truthiness on the optional fields. -/
def universal_rule_prediction (measure_name : String) (p : UserProfile) : ℚ :=
  if measure_name = "shoulder" then
    (if optTruthy p.shoulder_cm then p.shoulder_cm.getD 0 else p.height_cm * (25/100))
  else if measure_name = "sleeve_length" then
    (if optTruthy p.sleeve_length_cm then p.sleeve_length_cm.getD 0 else p.height_cm * (32/100))
  else if measure_name = "inseam" then p.height_cm * (45/100)
  else if measure_name = "outseam" then p.height_cm * (58/100)
  else if measure_name = "length" then p.height_cm * (35/100)
  else p.height_cm * (3/10)

/-- `EnhancedMeasurementPredictor._rule_based_prediction`
(src/ai_service.py:2384-2468): the gender/measure-specific anthropometric
formulas, always returning a prediction with confidence 0.7 and method
`"rule_based"`. -/
def rule_based_prediction (measure_name : String) (p : UserProfile) :
    MeasurementPrediction :=
  let prediction :=
    if p.gender = "F" then
      if measure_name = "bust" ∨ measure_name = "chest" then
        (if optTruthy p.bust_cm then p.bust_cm.getD 0
         else p.height_cm * (52/100) + p.weight_kg * (4/10))
      else if measure_name = "waist" then
        (if optTruthy p.waist_cm then p.waist_cm.getD 0
         else p.height_cm * (42/100) + p.weight_kg * (3/10))
      else if measure_name = "hip" then
        (if optTruthy p.hip_cm then p.hip_cm.getD 0
         else p.height_cm * (54/100) + p.weight_kg * (35/100))
      else universal_rule_prediction measure_name p
    else
      if measure_name = "chest" then
        (if optTruthy p.chest_cm then p.chest_cm.getD 0
         else p.height_cm * (52/100) + p.weight_kg * (4/10))
      else if measure_name = "waist" then
        (if optTruthy p.waist_cm then p.waist_cm.getD 0
         else p.height_cm * (42/100) + p.weight_kg * (3/10))
      else universal_rule_prediction measure_name p
  { measure_name := measure_name
    value_cm := pyRound 2 prediction
    confidence := 7/10
    method_used := "rule_based"
    features_used := ["height_cm", "weight_kg", "gender"] }

/-- `EnhancedMeasurementPredictor._ml_prediction` (src/ai_service.py:2325-2382).
The fitted scikit-learn regressor and its stored metrics are external state,
modelled by the oracle functions `mlPredict`, `rmse` and `modelType` keyed by
`"{garment_code}__{measure_name}"`. -/
def ml_prediction (mlPredict : String → UserProfile → ℚ) (rmse : String → ℚ)
    (modelType : String → String) (key : String) (measure_name : String)
    (p : UserProfile) : MeasurementPrediction :=
  let prediction := mlPredict key p
  let confidence := min (95/100) (max (1/10) (1 - rmse key / 50))
  { measure_name := measure_name
    value_cm := pyRound 2 prediction
    confidence := confidence
    method_used := "ml_" ++ modelType key
    original_prediction := some (pyRound 2 prediction)
    features_used := [] }

/-- `EnhancedMeasurementPredictor.predict_with_confidence`
(src/ai_service.py:2098-2210).  `models` is the set of keys of `self.models`;
a manual override returns immediately; then the gender-specific garment
branch, the female shirt/blazer rules, and finally the ML model or the
rule-based fallback for the key `"{garment_code}__{measure_name}"`. -/
def predict_with_confidence (models : List String)
    (mlPredict : String → UserProfile → ℚ) (rmse : String → ℚ)
    (modelType : String → String) (garment_code measure_name : String)
    (p : UserProfile) (manual_override : Option ℚ) : MeasurementPrediction :=
  match manual_override with
  | some v =>
      { measure_name := measure_name
        value_cm := pyRound 2 v
        confidence := 1
        method_used := "manual_override"
        original_prediction := none }
  | none =>
    let garment_type := extract_garment_type garment_code
    if is_gender_specific_garment garment_type p.gender then
      predict_gender_specific_measurement garment_type measure_name p
    else
      let fem := if p.gender = "F" then
                   apply_female_garment_rules garment_code measure_name p
                 else none
      match fem with
      | some pred => pred
      | none =>
        let key := garment_code ++ "__" ++ measure_name
        if key ∈ models then
          ml_prediction mlPredict rmse modelType key measure_name p
        else rule_based_prediction measure_name p

/-! ## Model registry (`ModelRegistry.load_model`, src/ai_service.py:1008-1027) -/

/-- A `model_registry.json` entry (src/ai_service.py:996-1004). -/
structure RegistryEntry where
  version : String
  path : String
  checksum : String
  deriving Repr, DecidableEq

/-- The exceptions `load_model` can raise. -/
inductive LoadError where
  | fileNotFound (msg : String)
  | valueError (msg : String)
  deriving Repr, DecidableEq

/-- `ModelRegistry.load_model` (src/ai_service.py:1008-1027).  The registry
mapping and the file store are explicit association lists; `hash` models
`hashlib.md5(...).hexdigest()` over the stored bytes.  A missing registry
entry or a missing file raises `FileNotFoundError`; a checksum mismatch
raises `ValueError`; otherwise the stored model (its bytes) is returned. -/
def load_model (hash : List UInt8 → String)
    (registry : List (String × RegistryEntry))
    (files : List (String × List UInt8)) (model_name : String) :
    Except LoadError (List UInt8) :=
  match registry.lookup model_name with
  | none => Except.error (LoadError.fileNotFound ("Model " ++ model_name ++ " not found in registry"))
  | some info =>
    match files.lookup info.path with
    | none => Except.error (LoadError.fileNotFound ("Model file " ++ info.path ++ " not found"))
    | some contents =>
      if hash contents ≠ info.checksum then
        Except.error (LoadError.valueError ("Model " ++ model_name ++ " checksum mismatch"))
      else Except.ok contents

/-! ## SQL size recommendation
(`EnhancedSizeClassifier.get_sql_recommendation`, src/ai_service.py:1952-2044) -/

/-- Outcome of one database call: it can raise `mysql.connector.Error`
(caught by the inner handler), raise some other exception (caught only by
the outer handler), or return a value. -/
inductive DbCall (α : Type) where
  | raiseMysql
  | raiseOther
  | ret (v : α)
  deriving Repr, DecidableEq

/-- The dictionary returned by `get_sql_recommendation`. -/
structure SqlRecommendation where
  size_code : String
  size_id : ℤ
  confidence : ℚ
  method : String
  source : String
  deriving Repr, DecidableEq

/-- The BMI-threshold fallback inside the inner `except` handler
(src/ai_service.py:1991-2022). -/
def bmi_rule_recommendation (p : UserProfile) : SqlRecommendation :=
  let bmi := p.weight_kg / ((p.height_cm / 100) ^ 2)
  if bmi < 16 then ⟨"xs", 1, 75/100, "sql_rule_fallback", "rule"⟩
  else if bmi < 18 then ⟨"small", 2, 75/100, "sql_rule_fallback", "rule"⟩
  else if bmi < 22 then ⟨"medium", 3, 75/100, "sql_rule_fallback", "rule"⟩
  else if bmi < 25 then ⟨"large", 4, 75/100, "sql_rule_fallback", "rule"⟩
  else ⟨"xl", 5, 75/100, "sql_rule_fallback", "rule"⟩

/-- The age-only fallback of the outer `except` handler
(src/ai_service.py:2024-2044). -/
def age_fallback_recommendation (p : UserProfile) : SqlRecommendation :=
  let size_code := if p.age ≤ 8 then "small"
                   else if p.age ≤ 12 then "medium"
                   else "large"
  ⟨size_code, 0, 6/10, "age_fallback", "rule"⟩

/-- `EnhancedSizeClassifier.get_sql_recommendation` (src/ai_service.py:1952-2044).
`connOk` models whether `get_cnx()`/cursor creation succeeds; `fnCall` is the
`fn_best_size_id` query (returning `none` when the function returns NULL or no
row); `lookupCall` is the `size_chart` lookup (`ret none` = no row, mapped to
`'medium'`).  A NULL/zero `size_id` re-raises a `mysql.connector.Error` that
the inner handler turns into the BMI rule; any non-MySQL exception reaches the
outer handler and yields the age fallback.  A zero height would make the BMI
expression raise `ZeroDivisionError`, also caught by the outer handler. -/
def bmi_or_crash (p : UserProfile) : SqlRecommendation :=
  if p.height_cm = 0 then age_fallback_recommendation p
  else bmi_rule_recommendation p

def get_sql_recommendation (connOk : Bool) (fnCall : DbCall (Option ℤ))
    (lookupCall : DbCall (Option String)) (p : UserProfile) :
    SqlRecommendation :=
  match connOk with
  | false => age_fallback_recommendation p
  | true =>
    match fnCall with
    | DbCall.raiseMysql => bmi_or_crash p
    | DbCall.raiseOther => age_fallback_recommendation p
    | DbCall.ret size_id =>
      match size_id with
      | none => bmi_or_crash p           -- NULL → raise → inner handler
      | some i =>
        if i = 0 then bmi_or_crash p     -- falsy size_id → same path
        else
          match lookupCall with
          | DbCall.raiseMysql => bmi_or_crash p
          | DbCall.raiseOther => age_fallback_recommendation p
          | DbCall.ret codeRow =>
            { size_code := codeRow.getD "medium"
              size_id := i
              confidence := 85/100
              method := "sql_function"
              source := "db" }

/-! ## Supporting lemmas -/

lemma floor_le_roundHalfToEven (q : ℚ) : ⌊q⌋ ≤ roundHalfToEven q := by
  unfold roundHalfToEven
  dsimp only
  split_ifs <;> omega

lemma roundHalfToEven_le_ceil (q : ℚ) : roundHalfToEven q ≤ ⌈q⌉ := by
  have hfc : ⌊q⌋ ≤ ⌈q⌉ := Int.floor_le_ceil q
  have hlt : ∀ _h : (0 : ℚ) < q - (⌊q⌋ : ℚ), ⌊q⌋ + 1 ≤ ⌈q⌉ := by
    intro h
    have h2 : (⌊q⌋ : ℚ) < q := by linarith
    have h3 : ⌊q⌋ < ⌈q⌉ := Int.lt_ceil.mpr h2
    omega
  unfold roundHalfToEven
  dsimp only
  split_ifs with h1 h2 h3
  · exact hfc
  · exact hlt (by linarith)
  · exact hfc
  · exact hlt (by linarith)

lemma roundHalfToEven_ge (q : ℚ) : q - 1/2 ≤ (roundHalfToEven q : ℚ) := by
  have h1 : (⌊q⌋ : ℚ) ≤ q := Int.floor_le q
  have h2 : q < (⌊q⌋ : ℚ) + 1 := Int.lt_floor_add_one q
  unfold roundHalfToEven
  dsimp only
  split_ifs with hc1 hc2 hc3 <;> push_cast <;> linarith

lemma roundHalfToEven_le (q : ℚ) : (roundHalfToEven q : ℚ) ≤ q + 1/2 := by
  have h1 : (⌊q⌋ : ℚ) ≤ q := Int.floor_le q
  unfold roundHalfToEven
  dsimp only
  split_ifs with hc1 hc2 hc3 <;> push_cast <;> linarith

lemma pyRound_le_of_le (n : ℕ) (q : ℚ) (B : ℤ) (h : q ≤ (B : ℚ)) :
    pyRound n q ≤ (B : ℚ) := by
  unfold pyRound
  have hpow : (0 : ℚ) < 10 ^ n := by positivity
  rw [div_le_iff₀ hpow]
  have hceil : ⌈q * 10 ^ n⌉ ≤ B * 10 ^ n := by
    apply Int.ceil_le.mpr
    push_cast
    exact mul_le_mul_of_nonneg_right h (by positivity)
  have := roundHalfToEven_le_ceil (q * 10 ^ n)
  have hint : roundHalfToEven (q * 10 ^ n) ≤ B * 10 ^ n := le_trans this hceil
  exact_mod_cast hint

lemma le_pyRound_of_le (n : ℕ) (q : ℚ) (A : ℤ) (h : (A : ℚ) ≤ q) :
    (A : ℚ) ≤ pyRound n q := by
  unfold pyRound
  have hpow : (0 : ℚ) < 10 ^ n := by positivity
  rw [le_div_iff₀ hpow]
  have hfloor : A * 10 ^ n ≤ ⌊q * 10 ^ n⌋ := by
    apply Int.le_floor.mpr
    push_cast
    exact mul_le_mul_of_nonneg_right h (by positivity)
  have hint : A * 10 ^ n ≤ roundHalfToEven (q * 10 ^ n) :=
    le_trans hfloor (floor_le_roundHalfToEven _)
  exact_mod_cast hint

lemma pyRound_ge_sub (n : ℕ) (q : ℚ) :
    q - 1 / (2 * 10 ^ n) ≤ pyRound n q := by
  unfold pyRound
  have hpow : (0 : ℚ) < 10 ^ n := by positivity
  rw [le_div_iff₀ hpow]
  have := roundHalfToEven_ge (q * 10 ^ n)
  have hne : (10 : ℚ) ^ n ≠ 0 := ne_of_gt hpow
  field_simp
  rw [div_le_iff₀ (by positivity : (0:ℚ) < 2 * 10 ^ n)]
  nlinarith [this]


lemma inBounds_spec {v lo hi : ℚ} (h : inBounds v lo hi = true) : lo ≤ v ∧ v ≤ hi := by
  simpa [inBounds] using h

lemma optInBounds_spec {v : Option ℚ} {lo hi : ℚ} (h : optInBounds v lo hi = true) :
    ∀ x, v = some x → lo ≤ x ∧ x ≤ hi := by
  intro x hx
  subst hx
  simpa [optInBounds, inBounds] using h

lemma pyRound_clamp_lo (n : ℕ) (A B : ℤ) (x : ℚ) :
    (A : ℚ) ≤ pyRound n (max (A : ℚ) (min x (B : ℚ))) :=
  le_pyRound_of_le n _ A (le_max_left _ _)

lemma pyRound_clamp_hi (n : ℕ) (A B : ℤ) (x : ℚ) (h : (A : ℚ) ≤ (B : ℚ)) :
    pyRound n (max (A : ℚ) (min x (B : ℚ))) ≤ (B : ℚ) :=
  pyRound_le_of_le n _ B (max_le h (min_le_right _ _))

lemma estimate_bust_bounds (p : UserProfile) :
    (40 : ℚ) ≤ estimate_bust_from_height_weight p ∧
      estimate_bust_from_height_weight p ≤ 140 := by
  unfold estimate_bust_from_height_weight
  constructor
  · exact_mod_cast pyRound_clamp_lo 1 40 140 _
  · exact_mod_cast pyRound_clamp_hi 1 40 140 _ (by norm_num)

lemma estimate_waist_bounds (p : UserProfile) :
    (40 : ℚ) ≤ estimate_waist_from_height_weight p ∧
      estimate_waist_from_height_weight p ≤ 140 := by
  unfold estimate_waist_from_height_weight
  constructor
  · exact_mod_cast pyRound_clamp_lo 1 40 140 _
  · exact_mod_cast pyRound_clamp_hi 1 40 140 _ (by norm_num)

lemma estimate_hip_bounds (p : UserProfile) :
    (40 : ℚ) ≤ estimate_hip_from_height_weight p ∧
      estimate_hip_from_height_weight p ≤ 160 := by
  unfold estimate_hip_from_height_weight
  constructor
  · exact_mod_cast pyRound_clamp_lo 1 40 160 _
  · exact_mod_cast pyRound_clamp_hi 1 40 160 _ (by norm_num)

lemma estimate_chest_bounds (p : UserProfile) :
    (40 : ℚ) ≤ estimate_chest_from_height_weight p ∧
      estimate_chest_from_height_weight p ≤ 140 := by
  unfold estimate_chest_from_height_weight
  constructor
  · exact_mod_cast pyRound_clamp_lo 1 40 140 _
  · exact_mod_cast pyRound_clamp_hi 1 40 140 _ (by norm_num)

lemma estimate_shoulder_bounds (p : UserProfile) :
    (28 : ℚ) ≤ estimate_shoulder_from_height p ∧
      estimate_shoulder_from_height p ≤ 50 := by
  unfold estimate_shoulder_from_height
  constructor
  · exact_mod_cast pyRound_clamp_lo 1 28 50 _
  · exact_mod_cast pyRound_clamp_hi 1 28 50 _ (by norm_num)

lemma estimate_sleeve_bounds (p : UserProfile) :
    (15 : ℚ) ≤ estimate_sleeve_from_height p ∧
      estimate_sleeve_from_height p ≤ 65 := by
  unfold estimate_sleeve_from_height
  constructor
  · exact_mod_cast pyRound_clamp_lo 1 15 65 _
  · exact_mod_cast pyRound_clamp_hi 1 15 65 _ (by norm_num)

lemma derive_gender (p : UserProfile) :
    (derive_missing_measurements p).gender = p.gender := by
  unfold derive_missing_measurements
  split <;> rfl

lemma derive_F_bust (p : UserProfile) (h : p.gender = "F") :
    (derive_missing_measurements p).bust_cm =
      (match p.bust_cm, p.chest_cm with
       | none, some c => some c
       | none, none => some (estimate_bust_from_height_weight p)
       | some b, _ => some b) := by
  rw [derive_missing_measurements, if_pos h]

lemma derive_F_waist (p : UserProfile) (h : p.gender = "F") :
    (derive_missing_measurements p).waist_cm =
      (match p.waist_cm with
       | none => some (estimate_waist_from_height_weight p)
       | some w => some w) := by
  rw [derive_missing_measurements, if_pos h]

lemma derive_F_hip (p : UserProfile) (h : p.gender = "F") :
    (derive_missing_measurements p).hip_cm =
      (match p.hip_cm with
       | none => some (estimate_hip_from_height_weight p)
       | some v => some v) := by
  rw [derive_missing_measurements, if_pos h]

lemma derive_F_shoulder (p : UserProfile) (h : p.gender = "F") :
    (derive_missing_measurements p).shoulder_cm =
      (match p.shoulder_cm with
       | none => some (estimate_shoulder_from_height p)
       | some v => some v) := by
  rw [derive_missing_measurements, if_pos h]

lemma derive_F_sleeve (p : UserProfile) (h : p.gender = "F") :
    (derive_missing_measurements p).sleeve_length_cm =
      (match p.sleeve_length_cm with
       | none => some (estimate_sleeve_from_height p)
       | some v => some v) := by
  rw [derive_missing_measurements, if_pos h]

lemma derive_M_chest (p : UserProfile) (h : ¬p.gender = "F") :
    (derive_missing_measurements p).chest_cm =
      (match p.chest_cm with
       | none => some (estimate_chest_from_height_weight p)
       | some v => some v) := by
  rw [derive_missing_measurements, if_neg h]

lemma derive_M_waist (p : UserProfile) (h : ¬p.gender = "F") :
    (derive_missing_measurements p).waist_cm =
      (match p.waist_cm with
       | none => some (estimate_waist_from_height_weight p)
       | some v => some v) := by
  rw [derive_missing_measurements, if_neg h]

lemma derive_M_shoulder (p : UserProfile) (h : ¬p.gender = "F") :
    (derive_missing_measurements p).shoulder_cm =
      (match p.shoulder_cm with
       | none => some (estimate_shoulder_from_height p)
       | some v => some v) := by
  rw [derive_missing_measurements, if_neg h]

lemma derive_M_sleeve (p : UserProfile) (h : ¬p.gender = "F") :
    (derive_missing_measurements p).sleeve_length_cm =
      (match p.sleeve_length_cm with
       | none => some (estimate_sleeve_from_height p)
       | some v => some v) := by
  rw [derive_missing_measurements, if_neg h]

lemma mkUserProfile_ok {p : UserProfile} (hv : validate_bounds p = true) :
    mkUserProfile p = Except.ok (derive_missing_measurements p) := by
  rw [mkUserProfile, if_pos hv]

lemma foldl_pickMax_mem (t : List (String × ℚ)) (h : String × ℚ) :
    t.foldl (fun cur x => if cur.2 < x.2 then x else cur) h ∈ h :: t := by
  induction t generalizing h with
  | nil => simp
  | cons x t ih =>
    simp only [List.foldl_cons]
    have hm := ih (if h.2 < x.2 then x else h)
    rcases List.mem_cons.mp hm with he | ht
    · rw [he]
      by_cases hx : h.2 < x.2 <;> simp [hx]
    · simp [List.mem_cons, ht]

lemma foldl_pickMax_ge (t : List (String × ℚ)) (h : String × ℚ) :
    h.2 ≤ (t.foldl (fun cur x => if cur.2 < x.2 then x else cur) h).2 ∧
      ∀ x ∈ t, x.2 ≤ (t.foldl (fun cur x => if cur.2 < x.2 then x else cur) h).2 := by
  induction t generalizing h with
  | nil => simp
  | cons x t ih =>
    simp only [List.foldl_cons]
    have hih := ih (if h.2 < x.2 then x else h)
    have h1 : h.2 ≤ (if h.2 < x.2 then x else h).2 := by
      by_cases hx : h.2 < x.2 <;> simp [hx]
      exact le_of_lt hx
    have h2 : x.2 ≤ (if h.2 < x.2 then x else h).2 := by
      by_cases hx : h.2 < x.2 <;> simp [hx]
      exact le_of_not_lt hx
    refine ⟨le_trans h1 hih.1, ?_⟩
    intro y hy
    rcases List.mem_cons.mp hy with rfl | ht
    · exact le_trans h2 hih.1
    · exact hih.2 y ht

lemma pyMaxByVal_isSome {l : List (String × ℚ)} (h : l ≠ []) :
    ∃ b, pyMaxByVal l = some b := by
  cases l with
  | nil => exact absurd rfl h
  | cons x t => exact ⟨_, rfl⟩

lemma pyMaxByVal_mem {l : List (String × ℚ)} {b : String × ℚ}
    (h : pyMaxByVal l = some b) : b ∈ l := by
  cases l with
  | nil => simp [pyMaxByVal] at h
  | cons x t =>
    simp only [pyMaxByVal, Option.some.injEq] at h
    have := foldl_pickMax_mem t x
    rwa [h] at this

lemma pyMaxByVal_ge {l : List (String × ℚ)} {b : String × ℚ}
    (h : pyMaxByVal l = some b) : ∀ x ∈ l, x.2 ≤ b.2 := by
  cases l with
  | nil => simp [pyMaxByVal] at h
  | cons x t =>
    simp only [pyMaxByVal, Option.some.injEq] at h
    intro y hy
    have hge := foldl_pickMax_ge t x
    rcases List.mem_cons.mp hy with he | ht
    · exact he ▸ h ▸ hge.1
    · exact h ▸ hge.2 y ht

lemma sortDescByProb_perm (l : List (String × ℚ)) : List.Perm (sortDescByProb l) l :=
  List.perm_insertionSort _ l

/-- The head of the descending sort is the Python `max` when the probability
values are pairwise distinct. -/
lemma sortDescByProb_head {l : List (String × ℚ)} (hne : l ≠ [])
    (hvals : (l.map Prod.snd).Nodup) :
    ∃ b rest, pyMaxByVal l = some b ∧ sortDescByProb l = b :: rest := by
  obtain ⟨b, hb⟩ := pyMaxByVal_isSome hne
  have hperm : List.Perm (sortDescByProb l) l := sortDescByProb_perm l
  have hsorted : List.Sorted (fun a b : String × ℚ => b.2 ≤ a.2) (sortDescByProb l) :=
    List.sorted_insertionSort _ l
  cases hs : sortDescByProb l with
  | nil =>
    rw [hs] at hperm
    exact absurd (hperm.symm.eq_nil) hne
  | cons hd rest =>
    refine ⟨b, rest, hb, ?_⟩
    have hbl : b ∈ l := pyMaxByVal_mem hb
    have hbs : b ∈ hd :: rest := by
      rw [← hs]
      exact hperm.mem_iff.mpr hbl
    rcases List.mem_cons.mp hbs with he | ht
    · rw [he]
    · exfalso
      have hhl : hd ∈ l := hperm.mem_iff.mp (hs ▸ List.mem_cons_self hd rest)
      have h1 : hd.2 ≤ b.2 := pyMaxByVal_ge hb hd hhl
      have h2 : b.2 ≤ hd.2 := by
        rw [hs] at hsorted
        exact (List.sorted_cons.mp hsorted).1 b ht
      have heq : b.2 = hd.2 := le_antisymm h2 h1
      have hvs : ((sortDescByProb l).map Prod.snd).Nodup :=
        ((hperm.map Prod.snd).nodup_iff).mpr hvals
      rw [hs] at hvs
      simp only [List.map_cons, List.nodup_cons] at hvs
      exact hvs.1 (heq ▸ List.mem_map_of_mem Prod.snd ht)

/-! ## Claim theorems -/

/-- C1, amended.  For every profile that passes `_validate_bounds`, every
measurement field that `_derive_missing_measurements` backfills (one that was
`None` in the input) receives a value within its declared range — with two
qualifications forced by the code: for gender `F` a supplied `chest_cm` is
copied into `bust_cm` without clamping, so the claim needs the proviso that
such a chest value lies in the bust range `[40, 140]`; and the derived male
`chest_cm` is clamped to the literal range `[40, 140]` because `chest_cm` has
no `VALIDATION_BOUNDS` entry. -/
theorem derived_measurements_in_bounds (p : UserProfile)
    (hv : validate_bounds p = true)
    (hchest : p.gender = "F" → p.bust_cm = none →
      ∀ c, p.chest_cm = some c → (40 : ℚ) ≤ c ∧ c ≤ 140) :
    ∃ q, mkUserProfile p = Except.ok q ∧
      (p.gender = "F" →
        (p.bust_cm = none → ∃ v, q.bust_cm = some v ∧ (40 : ℚ) ≤ v ∧ v ≤ 140) ∧
        (p.waist_cm = none → ∃ v, q.waist_cm = some v ∧ (40 : ℚ) ≤ v ∧ v ≤ 140) ∧
        (p.hip_cm = none → ∃ v, q.hip_cm = some v ∧ (40 : ℚ) ≤ v ∧ v ≤ 160) ∧
        (p.shoulder_cm = none → ∃ v, q.shoulder_cm = some v ∧ (28 : ℚ) ≤ v ∧ v ≤ 50) ∧
        (p.sleeve_length_cm = none →
          ∃ v, q.sleeve_length_cm = some v ∧ (15 : ℚ) ≤ v ∧ v ≤ 65)) ∧
      (p.gender ≠ "F" →
        (p.chest_cm = none → ∃ v, q.chest_cm = some v ∧ (40 : ℚ) ≤ v ∧ v ≤ 140) ∧
        (p.waist_cm = none → ∃ v, q.waist_cm = some v ∧ (40 : ℚ) ≤ v ∧ v ≤ 140) ∧
        (p.shoulder_cm = none → ∃ v, q.shoulder_cm = some v ∧ (28 : ℚ) ≤ v ∧ v ≤ 50) ∧
        (p.sleeve_length_cm = none →
          ∃ v, q.sleeve_length_cm = some v ∧ (15 : ℚ) ≤ v ∧ v ≤ 65)) := by
  refine ⟨derive_missing_measurements p, mkUserProfile_ok hv, ?_, ?_⟩
  · intro hF
    refine ⟨?_, ?_, ?_, ?_, ?_⟩
    · intro hbn
      cases hc : p.chest_cm with
      | none =>
        refine ⟨estimate_bust_from_height_weight p, ?_,
          (estimate_bust_bounds p).1, (estimate_bust_bounds p).2⟩
        rw [derive_F_bust p hF, hbn, hc]
      | some c =>
        refine ⟨c, ?_, (hchest hF hbn c hc).1, (hchest hF hbn c hc).2⟩
        rw [derive_F_bust p hF, hbn, hc]
    · intro hn
      refine ⟨estimate_waist_from_height_weight p, ?_,
        (estimate_waist_bounds p).1, (estimate_waist_bounds p).2⟩
      rw [derive_F_waist p hF, hn]
    · intro hn
      refine ⟨estimate_hip_from_height_weight p, ?_,
        (estimate_hip_bounds p).1, (estimate_hip_bounds p).2⟩
      rw [derive_F_hip p hF, hn]
    · intro hn
      refine ⟨estimate_shoulder_from_height p, ?_,
        (estimate_shoulder_bounds p).1, (estimate_shoulder_bounds p).2⟩
      rw [derive_F_shoulder p hF, hn]
    · intro hn
      refine ⟨estimate_sleeve_from_height p, ?_,
        (estimate_sleeve_bounds p).1, (estimate_sleeve_bounds p).2⟩
      rw [derive_F_sleeve p hF, hn]
  · intro hM
    refine ⟨?_, ?_, ?_, ?_⟩
    · intro hn
      refine ⟨estimate_chest_from_height_weight p, ?_,
        (estimate_chest_bounds p).1, (estimate_chest_bounds p).2⟩
      rw [derive_M_chest p hM, hn]
    · intro hn
      refine ⟨estimate_waist_from_height_weight p, ?_,
        (estimate_waist_bounds p).1, (estimate_waist_bounds p).2⟩
      rw [derive_M_waist p hM, hn]
    · intro hn
      refine ⟨estimate_shoulder_from_height p, ?_,
        (estimate_shoulder_bounds p).1, (estimate_shoulder_bounds p).2⟩
      rw [derive_M_shoulder p hM, hn]
    · intro hn
      refine ⟨estimate_sleeve_from_height p, ?_,
        (estimate_sleeve_bounds p).1, (estimate_sleeve_bounds p).2⟩
      rw [derive_M_sleeve p hM, hn]

/-- C1 witness: the female profile (age 13, 152 cm, 44 kg) with no
measurements supplied passes validation and gets all derived fields in range. -/
theorem derived_measurements_in_bounds_witness :
    ∃ q, mkUserProfile { gender := "F", age := 13, height_cm := 152, weight_kg := 44 }
        = Except.ok q ∧
      (("F" : String) = "F" →
        ((none : Option ℚ) = none → ∃ v, q.bust_cm = some v ∧ (40 : ℚ) ≤ v ∧ v ≤ 140) ∧
        ((none : Option ℚ) = none → ∃ v, q.waist_cm = some v ∧ (40 : ℚ) ≤ v ∧ v ≤ 140) ∧
        ((none : Option ℚ) = none → ∃ v, q.hip_cm = some v ∧ (40 : ℚ) ≤ v ∧ v ≤ 160) ∧
        ((none : Option ℚ) = none → ∃ v, q.shoulder_cm = some v ∧ (28 : ℚ) ≤ v ∧ v ≤ 50) ∧
        ((none : Option ℚ) = none →
          ∃ v, q.sleeve_length_cm = some v ∧ (15 : ℚ) ≤ v ∧ v ≤ 65)) ∧
      (("F" : String) ≠ "F" →
        ((none : Option ℚ) = none → ∃ v, q.chest_cm = some v ∧ (40 : ℚ) ≤ v ∧ v ≤ 140) ∧
        ((none : Option ℚ) = none → ∃ v, q.waist_cm = some v ∧ (40 : ℚ) ≤ v ∧ v ≤ 140) ∧
        ((none : Option ℚ) = none → ∃ v, q.shoulder_cm = some v ∧ (28 : ℚ) ≤ v ∧ v ≤ 50) ∧
        ((none : Option ℚ) = none →
          ∃ v, q.sleeve_length_cm = some v ∧ (15 : ℚ) ≤ v ∧ v ≤ 65)) :=
  derived_measurements_in_bounds
    { gender := "F", age := 13, height_cm := 152, weight_kg := 44 }
    (by decide) (by intro _ _ c hc; cases hc)

/-- C1 counterexample: a valid female profile whose supplied `chest_cm = 200`
(unchecked: `VALIDATION_BOUNDS` has no chest entry) is accepted, and the
constructor copies it into `bust_cm` unclamped, leaving the derived
`bust_cm = 200` outside the declared bust range `[40, 140]`. -/
theorem unclamped_chest_copy_cex :
    validate_bounds { gender := "F", age := 10, height_cm := 150, weight_kg := 40,
                      chest_cm := some 200 } = true ∧
    mkUserProfile { gender := "F", age := 10, height_cm := 150, weight_kg := 40,
                    chest_cm := some 200 }
      = Except.ok (derive_missing_measurements
          { gender := "F", age := 10, height_cm := 150, weight_kg := 40,
            chest_cm := some 200 }) ∧
    (derive_missing_measurements
        { gender := "F", age := 10, height_cm := 150, weight_kg := 40,
          chest_cm := some 200 }).bust_cm = some 200 ∧
    ¬((200 : ℚ) ≤ 140) := by
  with_unfolding_all decide

/-- C7, amended.  `UserProfile.__post_init__` does not validate `gender` at
all: a profile whose gender is outside `{M, F}` is not rejected — every
gender other than `"F"` takes the male derivation branch of
`_derive_missing_measurements` and a fully derived profile is produced. -/
theorem non_female_gender_takes_male_path (p : UserProfile)
    (hv : validate_bounds p = true) (hg : p.gender ≠ "F") :
    ∃ q, mkUserProfile p = Except.ok q ∧ q.gender = p.gender ∧
      q.chest_cm.isSome ∧ q.waist_cm.isSome ∧
      q.shoulder_cm.isSome ∧ q.sleeve_length_cm.isSome := by
  refine ⟨derive_missing_measurements p, mkUserProfile_ok hv, derive_gender p,
    ?_, ?_, ?_, ?_⟩
  · rw [derive_M_chest p hg]; cases p.chest_cm <;> rfl
  · rw [derive_M_waist p hg]; cases p.waist_cm <;> rfl
  · rw [derive_M_shoulder p hg]; cases p.shoulder_cm <;> rfl
  · rw [derive_M_sleeve p hg]; cases p.sleeve_length_cm <;> rfl

/-- C7 witness: gender `"X"` with otherwise valid inputs produces a profile
via the male path. -/
theorem non_female_gender_takes_male_path_witness :
    ∃ q, mkUserProfile { gender := "X", age := 10, height_cm := 150, weight_kg := 40 }
        = Except.ok q ∧
      q.gender = ({ gender := "X", age := 10, height_cm := 150,
                    weight_kg := 40 : UserProfile }).gender ∧
      q.chest_cm.isSome ∧ q.waist_cm.isSome ∧
      q.shoulder_cm.isSome ∧ q.sleeve_length_cm.isSome :=
  non_female_gender_takes_male_path
    { gender := "X", age := 10, height_cm := 150, weight_kg := 40 }
    (by decide) (by decide)

/-- C7 counterexample: Profile construction does not fail fast for a gender
outside `{M, F}`: gender `"X"` is accepted and the male derivation runs
(`chest_cm` is derived to 94.0, `waist_cm` to 75.0). -/
theorem invalid_gender_accepted_cex :
    mkUserProfile { gender := "X", age := 10, height_cm := 150, weight_kg := 40 }
      = Except.ok (derive_missing_measurements
          { gender := "X", age := 10, height_cm := 150, weight_kg := 40 }) ∧
    (derive_missing_measurements
        { gender := "X", age := 10, height_cm := 150, weight_kg := 40 }).chest_cm
      = some 94 ∧
    (derive_missing_measurements
        { gender := "X", age := 10, height_cm := 150, weight_kg := 40 }).waist_cm
      = some 75 := by
  with_unfolding_all decide

/-- C2, confirmed.  For every garment code, measure name, valid profile and
any model state, a manual override of 72.5 returns `value_cm = 72.5`,
`confidence = 1.0` and `method_used = "manual_override"`: the override branch
of `EnhancedMeasurementPredictor.predict_with_confidence` short-circuits
before any model or rule is consulted. -/
theorem manual_override_spec (models : List String)
    (mlPredict : String → UserProfile → ℚ) (rmse : String → ℚ)
    (modelType : String → String) (garment_code measure_name : String)
    (p : UserProfile) :
    (predict_with_confidence models mlPredict rmse modelType garment_code
        measure_name p (some (145/2))).value_cm = 145/2 ∧
    (predict_with_confidence models mlPredict rmse modelType garment_code
        measure_name p (some (145/2))).confidence = 1 ∧
    (predict_with_confidence models mlPredict rmse modelType garment_code
        measure_name p (some (145/2))).method_used = "manual_override" := by
  refine ⟨?_, rfl, rfl⟩
  show pyRound 2 (145/2) = 145/2
  with_unfolding_all decide

/-- C9, confirmed.  `_size_up` and `_size_down` are total; on members of the
ladder they return members of the ladder; on non-members they return the
input unchanged; and away from the respective ends they are mutually
inverse. -/
theorem size_ladder_spec (s : String) :
    (s ∈ size_order → size_up s ∈ size_order ∧ size_down s ∈ size_order) ∧
    (s ∉ size_order → size_up s = s ∧ size_down s = s) ∧
    (s ∈ size_order → s ≠ "xl" → size_down (size_up s) = s) ∧
    (s ∈ size_order → s ≠ "xs" → size_up (size_down s) = s) := by
  refine ⟨?_, ?_, ?_, ?_⟩
  · intro h
    fin_cases h <;> exact ⟨by decide, by decide⟩
  · intro h
    have hidx : size_order.indexOf? s = none := by
      rw [List.indexOf?_eq_none_iff]
      intro x hx hbeq
      exact h (beq_iff_eq.mp hbeq ▸ hx)
    constructor
    · rw [size_up, hidx]
    · rw [size_down, hidx]
  · intro h
    fin_cases h <;> decide
  · intro h
    fin_cases h <;> decide

/-- C9 witness: concrete checks at `"small"` (interior ladder member) and
`"foo"` (not in the ladder). -/
theorem size_ladder_spec_witness :
    (size_up "small" ∈ size_order ∧ size_down "small" ∈ size_order) ∧
    (size_up "foo" = "foo" ∧ size_down "foo" = "foo") ∧
    size_down (size_up "small") = "small" ∧
    size_up (size_down "small") = "small" :=
  ⟨(size_ladder_spec "small").1 (by decide),
   (size_ladder_spec "foo").2.1 (by decide),
   (size_ladder_spec "small").2.2.1 (by decide) (by decide),
   (size_ladder_spec "small").2.2.2 (by decide) (by decide)⟩

/-- C4, confirmed.  `"loose"` moves the recommendation exactly one step up
the ladder (index + 1) and multiplies the confidence by 0.9; `"snug"` with
age ≥ 10 moves exactly one step down with the same multiplier; `"snug"`
under age 10 changes nothing; and at the ladder ends the size is left
unchanged (the confidence multiplier still applies there). -/
theorem fit_adjustment_one_step (s : String) (conf : ℚ) (age : ℤ) :
    (apply_fit_adjustment s conf "loose" age = (size_up s, conf * (9/10))) ∧
    (10 ≤ age → apply_fit_adjustment s conf "snug" age = (size_down s, conf * (9/10))) ∧
    (age < 10 → apply_fit_adjustment s conf "snug" age = (s, conf)) ∧
    (s ∈ size_order → s ≠ "xl" →
      size_order.indexOf (size_up s) = size_order.indexOf s + 1) ∧
    size_up "xl" = "xl" ∧
    (s ∈ size_order → s ≠ "xs" →
      size_order.indexOf (size_down s) + 1 = size_order.indexOf s) ∧
    size_down "xs" = "xs" := by
  refine ⟨?_, ?_, ?_, ?_, by decide, ?_, by decide⟩
  · rw [apply_fit_adjustment, if_pos rfl]
  · intro h
    rw [apply_fit_adjustment, if_neg (by decide), if_pos ⟨rfl, h⟩]
  · intro h
    rw [apply_fit_adjustment, if_neg (by decide),
      if_neg (by exact fun hc => absurd hc.2 (not_le.mpr h))]
  · intro hmem
    fin_cases hmem <;> decide
  · intro hmem
    fin_cases hmem <;> decide

/-- C4 witness: concrete adjustments at `"medium"` with confidence 1/2
(loose at age 12, snug at ages 12 and 5) and the one-step index checks. -/
theorem fit_adjustment_one_step_witness :
    apply_fit_adjustment "medium" (1/2) "loose" 12 = (size_up "medium", (1/2 : ℚ) * (9/10)) ∧
    apply_fit_adjustment "medium" (1/2) "snug" 12 = (size_down "medium", (1/2 : ℚ) * (9/10)) ∧
    apply_fit_adjustment "medium" (1/2) "snug" 5 = ("medium", (1/2 : ℚ)) ∧
    size_order.indexOf (size_up "medium") = size_order.indexOf "medium" + 1 ∧
    size_order.indexOf (size_down "medium") + 1 = size_order.indexOf "medium" :=
  ⟨(fit_adjustment_one_step "medium" (1/2) 12).1,
   (fit_adjustment_one_step "medium" (1/2) 12).2.1 (by norm_num),
   (fit_adjustment_one_step "medium" (1/2) 5).2.2.1 (by norm_num),
   (fit_adjustment_one_step "medium" (1/2) 12).2.2.2.1 (by decide) (by decide),
   (fit_adjustment_one_step "medium" (1/2) 12).2.2.2.2.2.1 (by decide) (by decide)⟩

/-- C3, amended.  For the calibrated branch of
`EnhancedSizeClassifier.predict_with_confidence` (with distinct class names
and, to fix tie-breaking, pairwise-distinct calibrated probabilities): the
returned confidence lies in [0, 1], the alternatives are exactly the next
three classes of the probability-descending order after the arg-max class,
and the alternatives never contain the PRE-adjustment arg-max pick.  The
claim's further assertion — that they never contain the final recommendation
even after a fit-preference adjustment — is false (see the counterexample):
the alternatives are computed before the adjustment and not updated.  The
uncalibrated branch returns confidence in [0, 1] and no alternatives. -/
theorem classifier_confidence_alternatives (probs : List (String × ℚ))
    (fit_preference : String) (age : ℤ)
    (hne : probs ≠ [])
    (hnames : (probs.map Prod.fst).Nodup)
    (hvals : (probs.map Prod.snd).Nodup)
    (hrange : ∀ x ∈ probs, 0 ≤ x.2 ∧ x.2 ≤ 1) :
    ∃ best rest,
      pyMaxByVal probs = some best ∧
      sortDescByProb probs = best :: rest ∧
      classifier_post probs fit_preference age =
        some ((apply_fit_adjustment best.1 best.2 fit_preference age).1,
              (apply_fit_adjustment best.1 best.2 fit_preference age).2,
              rest.take 3) ∧
      0 ≤ (apply_fit_adjustment best.1 best.2 fit_preference age).2 ∧
      (apply_fit_adjustment best.1 best.2 fit_preference age).2 ≤ 1 ∧
      best.1 ∉ (rest.take 3).map Prod.fst ∧
      (∀ pred : String,
        0 ≤ (classifier_post_uncalibrated pred fit_preference age).2.1 ∧
        (classifier_post_uncalibrated pred fit_preference age).2.1 ≤ 1 ∧
        (classifier_post_uncalibrated pred fit_preference age).2.2 = []) := by
  obtain ⟨best, rest, hmax, hsort⟩ := sortDescByProb_head hne hvals
  have hb : best ∈ probs := pyMaxByVal_mem hmax
  have h01 := hrange best hb
  refine ⟨best, rest, hmax, hsort, ?_, ?_, ?_, ?_, ?_⟩
  · simp [classifier_post, hmax, hsort]
  · rw [apply_fit_adjustment]
    split_ifs <;> dsimp only <;> nlinarith [h01.1, h01.2]
  · rw [apply_fit_adjustment]
    split_ifs <;> dsimp only <;> nlinarith [h01.1, h01.2]
  · have hnames' : ((sortDescByProb probs).map Prod.fst).Nodup :=
      (((sortDescByProb_perm probs).map Prod.fst).nodup_iff).mpr hnames
    rw [hsort] at hnames'
    simp only [List.map_cons, List.nodup_cons] at hnames'
    intro hmem
    apply hnames'.1
    obtain ⟨x, hx, hxe⟩ := List.mem_map.mp hmem
    exact hxe ▸ List.mem_map_of_mem Prod.fst (List.take_subset 3 rest hx)
  · intro pred
    unfold classifier_post_uncalibrated apply_fit_adjustment
    split_ifs <;> refine ⟨by norm_num, by norm_num, rfl⟩

/-- C3 witness: three calibrated classes with distinct probabilities under a
standard fit preference. -/
theorem classifier_confidence_alternatives_witness :
    ∃ best rest,
      pyMaxByVal [("medium", (1:ℚ)/2), ("medium+", 3/10), ("large", 1/5)] = some best ∧
      sortDescByProb [("medium", (1:ℚ)/2), ("medium+", 3/10), ("large", 1/5)] = best :: rest ∧
      classifier_post [("medium", (1:ℚ)/2), ("medium+", 3/10), ("large", 1/5)] "standard" 12 =
        some ((apply_fit_adjustment best.1 best.2 "standard" 12).1,
              (apply_fit_adjustment best.1 best.2 "standard" 12).2,
              rest.take 3) ∧
      0 ≤ (apply_fit_adjustment best.1 best.2 "standard" 12).2 ∧
      (apply_fit_adjustment best.1 best.2 "standard" 12).2 ≤ 1 ∧
      best.1 ∉ (rest.take 3).map Prod.fst ∧
      (∀ pred : String,
        0 ≤ (classifier_post_uncalibrated pred "standard" 12).2.1 ∧
        (classifier_post_uncalibrated pred "standard" 12).2.1 ≤ 1 ∧
        (classifier_post_uncalibrated pred "standard" 12).2.2 = []) :=
  classifier_confidence_alternatives
    [("medium", (1:ℚ)/2), ("medium+", 3/10), ("large", 1/5)] "standard" 12
    (by decide) (by decide) (by with_unfolding_all decide)
    (by with_unfolding_all decide)

/-- C3 counterexample: with calibrated probabilities medium 0.5, medium+ 0.3,
large 0.2 and fit preference "loose", the final recommendation is sized up to
`"medium+"`, which still appears in the alternatives list — the claim that
the alternatives never contain the finally recommended size is false. -/
theorem classifier_alternatives_cex :
    classifier_post [("medium", (1:ℚ)/2), ("medium+", 3/10), ("large", 1/5)] "loose" 12
      = some ("medium+", 9/20, [("medium+", (3:ℚ)/10), ("large", 1/5)]) ∧
    "medium+" ∈ ([("medium+", (3:ℚ)/10), ("large", (1:ℚ)/5)].map Prod.fst) := by
  constructor
  · with_unfolding_all decide
  · decide

lemma predict_skirt_waist_F (models : List String)
    (mlPredict : String → UserProfile → ℚ) (rmse : String → ℚ)
    (modelType : String → String) (gc : String) (q : UserProfile)
    (hqg : q.gender = "F") (ht : extract_garment_type gc = "skirt") :
    predict_with_confidence models mlPredict rmse modelType gc "waist_cm" q none
      = predict_female_specific "skirt" "waist_cm" q := by
  simp only [predict_with_confidence, ht, hqg]
  rw [if_pos (by decide : is_gender_specific_garment "skirt" "F" = true)]
  simp [predict_gender_specific_measurement, hqg]

lemma predict_female_skirt_waist_value (q : UserProfile) (w : ℚ)
    (hw : q.waist_cm = some w) :
    predict_female_specific "skirt" "waist_cm" q
      = { measure_name := "waist_cm", value_cm := pyRound 2 (w + 4),
          confidence := 9/10, method_used := "female_skirt_waist_specific",
          features_used := ["waist_cm"] } := by
  simp [predict_female_specific, hw]

/-- C5, confirmed.  For every valid female profile and any garment code whose
type resolves to `skirt`, predicting `waist_cm` goes through the
gender-specific skirt rule, which adds a fixed positive 4 cm ease to the
(possibly derived) body waist; the returned value is strictly greater than
the profile's waist (rounding to 2 decimals changes the sum by at most
1/200 < 4). -/
theorem skirt_waist_strictly_greater (models : List String)
    (mlPredict : String → UserProfile → ℚ) (rmse : String → ℚ)
    (modelType : String → String) (garment_code : String) (p : UserProfile)
    (hv : validate_bounds p = true) (hg : p.gender = "F")
    (ht : extract_garment_type garment_code = "skirt") :
    ∃ q w, mkUserProfile p = Except.ok q ∧ q.waist_cm = some w ∧
      (predict_with_confidence models mlPredict rmse modelType garment_code
          "waist_cm" q none).method_used = "female_skirt_waist_specific" ∧
      w < (predict_with_confidence models mlPredict rmse modelType garment_code
          "waist_cm" q none).value_cm := by
  have hqg : (derive_missing_measurements p).gender = "F" := by
    rw [derive_gender]; exact hg
  obtain ⟨w, hw⟩ : ∃ w, (derive_missing_measurements p).waist_cm = some w := by
    rw [derive_F_waist p hg]
    cases p.waist_cm <;> exact ⟨_, rfl⟩
  have hpred : predict_with_confidence models mlPredict rmse modelType garment_code
      "waist_cm" (derive_missing_measurements p) none
      = { measure_name := "waist_cm", value_cm := pyRound 2 (w + 4),
          confidence := 9/10, method_used := "female_skirt_waist_specific",
          features_used := ["waist_cm"] } := by
    rw [predict_skirt_waist_F models mlPredict rmse modelType garment_code _ hqg ht,
      predict_female_skirt_waist_value _ w hw]
  refine ⟨derive_missing_measurements p, w, mkUserProfile_ok hv, hw, ?_, ?_⟩
  · rw [hpred]
  · rw [hpred]
    have hge := pyRound_ge_sub 2 (w + 4)
    have : (1 : ℚ) / (2 * 10 ^ 2) = 1/200 := by norm_num
    rw [this] at hge
    show w < pyRound 2 (w + 4)
    linarith

/-- C5 witness: the spec's example profile (F, 13, 152 cm, 44 kg, no
measurements) with garment code `"girls_skirt"`. -/
theorem skirt_waist_strictly_greater_witness :
    ∃ q w, mkUserProfile { gender := "F", age := 13, height_cm := 152, weight_kg := 44 }
        = Except.ok q ∧ q.waist_cm = some w ∧
      (predict_with_confidence [] (fun _ _ => 0) (fun _ => 0) (fun _ => "rf")
          "girls_skirt" "waist_cm" q none).method_used = "female_skirt_waist_specific" ∧
      w < (predict_with_confidence [] (fun _ _ => 0) (fun _ => 0) (fun _ => "rf")
          "girls_skirt" "waist_cm" q none).value_cm :=
  skirt_waist_strictly_greater [] (fun _ _ => 0) (fun _ => 0) (fun _ => "rf")
    "girls_skirt" { gender := "F", age := 13, height_cm := 152, weight_kg := 44 }
    (by decide) rfl (by with_unfolding_all decide)

/-- C6, amended.  When no trained model exists for the key
`"{garment_code}__{measure_name}"`, no gender-specific garment applies, no
female shirt/blazer rule covers the pair and no manual override is supplied,
`EnhancedMeasurementPredictor.predict_with_confidence` does NOT fail with a
model-not-found error: it falls back to `_rule_based_prediction` and returns
a value with method `"rule_based"` and confidence 0.7. -/
theorem no_model_falls_back_to_rule (models : List String)
    (mlPredict : String → UserProfile → ℚ) (rmse : String → ℚ)
    (modelType : String → String) (garment_code measure_name : String)
    (p : UserProfile)
    (hkey : (garment_code ++ "__" ++ measure_name) ∉ models)
    (hgs : is_gender_specific_garment (extract_garment_type garment_code) p.gender
        = false)
    (hfem : apply_female_garment_rules garment_code measure_name p = none) :
    predict_with_confidence models mlPredict rmse modelType garment_code
        measure_name p none = rule_based_prediction measure_name p ∧
    (rule_based_prediction measure_name p).method_used = "rule_based" ∧
    (rule_based_prediction measure_name p).confidence = 7/10 := by
  refine ⟨?_, rfl, rfl⟩
  simp only [predict_with_confidence, hgs]
  rw [if_neg (by simp)]
  have hfem' : (if p.gender = "F"
      then apply_female_garment_rules garment_code measure_name p
      else none) = none := by
    split <;> simp [hfem]
  rw [hfem']
  simp [hkey]

/-- C6 witness: empty model bank, garment `"pants"`, measure `"inseam"`,
male derived profile — the result is the rule-based fallback. -/
theorem no_model_falls_back_to_rule_witness :
    predict_with_confidence [] (fun _ _ => 0) (fun _ => 0) (fun _ => "rf")
        "pants" "inseam"
        (derive_missing_measurements
          { gender := "M", age := 10, height_cm := 140, weight_kg := 35 }) none
      = rule_based_prediction "inseam"
          (derive_missing_measurements
            { gender := "M", age := 10, height_cm := 140, weight_kg := 35 }) ∧
    (rule_based_prediction "inseam"
        (derive_missing_measurements
          { gender := "M", age := 10, height_cm := 140, weight_kg := 35 })).method_used
      = "rule_based" ∧
    (rule_based_prediction "inseam"
        (derive_missing_measurements
          { gender := "M", age := 10, height_cm := 140, weight_kg := 35 })).confidence
      = 7/10 :=
  no_model_falls_back_to_rule [] (fun _ _ => 0) (fun _ => 0) (fun _ => "rf")
    "pants" "inseam"
    (derive_missing_measurements
      { gender := "M", age := 10, height_cm := 140, weight_kg := 35 })
    (by decide) (by with_unfolding_all decide) (by with_unfolding_all decide)

/-- C6 counterexample: with no trained model for `("pants", "inseam")`, no
covering rule and no override, the predictor returns a rule-based VALUE
(63.0 cm, method `"rule_based"`, confidence 0.7) instead of failing with a
model-not-found error as the claim states. -/
theorem no_model_not_an_error_cex :
    (predict_with_confidence [] (fun _ _ => 0) (fun _ => 0) (fun _ => "rf")
        "pants" "inseam"
        (derive_missing_measurements
          { gender := "M", age := 10, height_cm := 140, weight_kg := 35 })
        none).method_used = "rule_based" ∧
    (predict_with_confidence [] (fun _ _ => 0) (fun _ => 0) (fun _ => "rf")
        "pants" "inseam"
        (derive_missing_measurements
          { gender := "M", age := 10, height_cm := 140, weight_kg := 35 })
        none).confidence = 7/10 ∧
    (predict_with_confidence [] (fun _ _ => 0) (fun _ => 0) (fun _ => "rf")
        "pants" "inseam"
        (derive_missing_measurements
          { gender := "M", age := 10, height_cm := 140, weight_kg := 35 })
        none).value_cm = 63 := by
  with_unfolding_all decide

/-- C8, confirmed.  `ModelRegistry.load_model` fails with a file-not-found
(registry-miss) error when the registry has no entry for the name or the
stored file is missing, fails with a `ValueError` (integrity error) when the
recomputed checksum of the stored bytes differs from the recorded one, and
whenever it does return a model its checksum matches the registry entry —
a corrupted file is never silently loaded. -/
theorem load_model_spec (hash : List UInt8 → String)
    (registry : List (String × RegistryEntry))
    (files : List (String × List UInt8)) (name : String) :
    (registry.lookup name = none →
      load_model hash registry files name
        = Except.error (LoadError.fileNotFound
            ("Model " ++ name ++ " not found in registry"))) ∧
    (∀ info, registry.lookup name = some info → files.lookup info.path = none →
      load_model hash registry files name
        = Except.error (LoadError.fileNotFound
            ("Model file " ++ info.path ++ " not found"))) ∧
    (∀ info contents, registry.lookup name = some info →
      files.lookup info.path = some contents →
      hash contents ≠ info.checksum →
      load_model hash registry files name
        = Except.error (LoadError.valueError
            ("Model " ++ name ++ " checksum mismatch"))) ∧
    (∀ info m, registry.lookup name = some info →
      load_model hash registry files name = Except.ok m →
      hash m = info.checksum) := by
  refine ⟨?_, ?_, ?_, ?_⟩
  · intro h
    simp only [load_model, h]
  · intro info h1 h2
    simp only [load_model, h1, h2]
  · intro info contents h1 h2 h3
    simp only [load_model, h1, h2]
    rw [if_pos h3]
  · intro info m h1 hok
    simp only [load_model, h1] at hok
    cases h2 : files.lookup info.path with
    | none =>
      simp only [h2] at hok
      cases hok
    | some contents =>
      simp only [h2] at hok
      by_cases h3 : hash contents = info.checksum
      · rw [if_neg (fun hne => hne h3)] at hok
        cases hok
        exact h3
      · rw [if_pos h3] at hok
        cases hok

/-- C8 witness: a one-entry registry with a matching file; the miss,
file-miss and mismatch cases are exercised with concrete stores. -/
theorem load_model_spec_witness :
    load_model (fun _ => "h1") [] [] "absent"
      = Except.error (LoadError.fileNotFound
          ("Model " ++ "absent" ++ " not found in registry")) ∧
    load_model (fun _ => "h1")
        [("size_classifier_female", ⟨"v4.0", "p1", "h1"⟩)] [] "size_classifier_female"
      = Except.error (LoadError.fileNotFound
          ("Model file " ++ "p1" ++ " not found")) ∧
    load_model (fun _ => "corrupt")
        [("size_classifier_female", ⟨"v4.0", "p1", "h1"⟩)] [("p1", [0])]
        "size_classifier_female"
      = Except.error (LoadError.valueError
          ("Model " ++ "size_classifier_female" ++ " checksum mismatch")) ∧
    (fun (_ : List UInt8) => "h1") [0] =
      (⟨"v4.0", "p1", "h1"⟩ : RegistryEntry).checksum :=
  ⟨(load_model_spec (fun _ => "h1") [] [] "absent").1 (by decide),
   (load_model_spec (fun _ => "h1")
      [("size_classifier_female", ⟨"v4.0", "p1", "h1"⟩)] [] "size_classifier_female").2.1
      ⟨"v4.0", "p1", "h1"⟩ (by decide) (by decide),
   (load_model_spec (fun _ => "corrupt")
      [("size_classifier_female", ⟨"v4.0", "p1", "h1"⟩)] [("p1", [0])]
      "size_classifier_female").2.2.1
      ⟨"v4.0", "p1", "h1"⟩ [0] (by decide) (by decide) (by decide),
   (load_model_spec (fun _ => "h1")
      [("size_classifier_female", ⟨"v4.0", "p1", "h1"⟩)] [("p1", [0])]
      "size_classifier_female").2.2.2
      ⟨"v4.0", "p1", "h1"⟩ [0] (by decide) (by decide)⟩

lemma bmi_rule_fields (p : UserProfile) :
    (bmi_rule_recommendation p).confidence = 75/100 ∧
      (bmi_rule_recommendation p).size_code ≠ "" ∧
      (bmi_rule_recommendation p).method = "sql_rule_fallback" := by
  unfold bmi_rule_recommendation
  dsimp only
  split_ifs <;> exact ⟨rfl, by decide, rfl⟩

lemma age_fallback_fields (p : UserProfile) :
    (age_fallback_recommendation p).confidence = 6/10 ∧
      (age_fallback_recommendation p).size_code ≠ "" ∧
      (age_fallback_recommendation p).method = "age_fallback" := by
  unfold age_fallback_recommendation
  dsimp only
  split_ifs <;> exact ⟨rfl, by decide, rfl⟩

/-- C10, confirmed.  `get_sql_recommendation` is total over every database
behaviour: each exception site sits inside a handler, so no exception
propagates to the caller, and the returned recommendation always carries
confidence 0.85 (database function path, method `"sql_function"`), 0.75
(BMI rule path, method `"sql_rule_fallback"`) or 0.6 (age-only path,
method `"age_fallback"`); the size_code is non-empty provided the
`size_chart` lookup only yields non-empty codes (a missing row maps to
`"medium"`). -/
theorem sql_recommendation_total (connOk : Bool) (fnCall : DbCall (Option ℤ))
    (lookupCall : DbCall (Option String)) (p : UserProfile)
    (hlookup : ∀ s, lookupCall = DbCall.ret (some s) → s ≠ "") :
    ((get_sql_recommendation connOk fnCall lookupCall p).confidence = 85/100 ∧
        (get_sql_recommendation connOk fnCall lookupCall p).method = "sql_function" ∨
      (get_sql_recommendation connOk fnCall lookupCall p).confidence = 75/100 ∧
        (get_sql_recommendation connOk fnCall lookupCall p).method = "sql_rule_fallback" ∨
      (get_sql_recommendation connOk fnCall lookupCall p).confidence = 6/10 ∧
        (get_sql_recommendation connOk fnCall lookupCall p).method = "age_fallback") ∧
    (get_sql_recommendation connOk fnCall lookupCall p).size_code ≠ "" := by
  have hbmi := bmi_rule_fields p
  have hage := age_fallback_fields p
  have hcrash :
      ((bmi_or_crash p).confidence = 85/100 ∧ (bmi_or_crash p).method = "sql_function" ∨
        (bmi_or_crash p).confidence = 75/100 ∧ (bmi_or_crash p).method = "sql_rule_fallback" ∨
        (bmi_or_crash p).confidence = 6/10 ∧ (bmi_or_crash p).method = "age_fallback") ∧
      (bmi_or_crash p).size_code ≠ "" := by
    unfold bmi_or_crash
    split_ifs
    · exact ⟨Or.inr (Or.inr ⟨hage.1, hage.2.2⟩), hage.2.1⟩
    · exact ⟨Or.inr (Or.inl ⟨hbmi.1, hbmi.2.2⟩), hbmi.2.1⟩
  unfold get_sql_recommendation
  cases connOk with
  | false => exact ⟨Or.inr (Or.inr ⟨hage.1, hage.2.2⟩), hage.2.1⟩
  | true =>
    cases fnCall with
    | raiseMysql => exact hcrash
    | raiseOther => exact ⟨Or.inr (Or.inr ⟨hage.1, hage.2.2⟩), hage.2.1⟩
    | ret size_id =>
      cases size_id with
      | none => exact hcrash
      | some i =>
        by_cases hi : i = 0
        · dsimp only
          rw [if_pos hi]
          exact hcrash
        · dsimp only
          rw [if_neg hi]
          cases lookupCall with
          | raiseMysql => exact hcrash
          | raiseOther => exact ⟨Or.inr (Or.inr ⟨hage.1, hage.2.2⟩), hage.2.1⟩
          | ret codeRow =>
            dsimp only
            refine ⟨Or.inl ⟨rfl, rfl⟩, ?_⟩
            cases codeRow with
            | none => decide
            | some str => exact hlookup str rfl

/-- C10 witness: a live connection, the database function returning size 3
and the size_chart lookup returning `"medium"`. -/
theorem sql_recommendation_total_witness :
    ((get_sql_recommendation true (DbCall.ret (some 3))
          (DbCall.ret (some "medium"))
          { gender := "F", age := 13, height_cm := 152, weight_kg := 44 }).confidence
        = 85/100 ∧
      (get_sql_recommendation true (DbCall.ret (some 3))
          (DbCall.ret (some "medium"))
          { gender := "F", age := 13, height_cm := 152, weight_kg := 44 }).method
        = "sql_function" ∨
      (get_sql_recommendation true (DbCall.ret (some 3))
          (DbCall.ret (some "medium"))
          { gender := "F", age := 13, height_cm := 152, weight_kg := 44 }).confidence
        = 75/100 ∧
      (get_sql_recommendation true (DbCall.ret (some 3))
          (DbCall.ret (some "medium"))
          { gender := "F", age := 13, height_cm := 152, weight_kg := 44 }).method
        = "sql_rule_fallback" ∨
      (get_sql_recommendation true (DbCall.ret (some 3))
          (DbCall.ret (some "medium"))
          { gender := "F", age := 13, height_cm := 152, weight_kg := 44 }).confidence
        = 6/10 ∧
      (get_sql_recommendation true (DbCall.ret (some 3))
          (DbCall.ret (some "medium"))
          { gender := "F", age := 13, height_cm := 152, weight_kg := 44 }).method
        = "age_fallback") ∧
    (get_sql_recommendation true (DbCall.ret (some 3))
        (DbCall.ret (some "medium"))
        { gender := "F", age := 13, height_cm := 152, weight_kg := 44 }).size_code
      ≠ "" :=
  sql_recommendation_total true (DbCall.ret (some 3)) (DbCall.ret (some "medium"))
    { gender := "F", age := 13, height_cm := 152, weight_kg := 44 }
    (by intro s hs; cases hs; decide)
